import Mathlib

set_option autoImplicit false

/-!
Shallow embedding of the nachet metadata-format data-access layer:
`datastore/db/metadata/machine_learning/__init__.py` (metadata shaping)
and `datastore/db/queries/inference/__init__.py` (inference queries).

Python dicts are modelled as association lists of `String` keys and
`PyVal` values, with Python's semantics: lookup returns the first
binding, assignment updates an existing key in place or appends.
Stateful query functions are modelled as explicit state passing over a
`Db` value together with a `DriverOutcome` oracle that says whether the
database driver fails the one statement the function executes.
-/

namespace Nachet

/-- A Python value as it may appear in a metadata record (the shaper only
moves values around, so the exact constructor set is immaterial beyond
covering the literals the source builds: strings, booleans, lists). -/
inductive PyVal where
  | vStr (s : String)
  | vBool (b : Bool)
  | vInt (n : Int)
  | vStrList (l : List String)
  | vNone
deriving DecidableEq, Repr

/-- A Python dict with string keys, as an association list. -/
abbrev PyDict := List (String × PyVal)

/-- Python `d[k]` lookup (first binding wins; Python dicts have unique keys). -/
def pyGet? (d : PyDict) (k : String) : Option PyVal :=
  (d.find? (fun kv => kv.1 == k)).map Prod.snd

/-- Python `k in d`. -/
def pyContains (d : PyDict) (k : String) : Bool :=
  (pyGet? d k).isSome

/-- Python `d[k] = v`: update the existing binding in place, else append. -/
def pySet (d : PyDict) (k : String) (v : PyVal) : PyDict :=
  if d.any (fun kv => kv.1 == k) then
    d.map (fun kv => if kv.1 = k then (kv.1, v) else kv)
  else
    d ++ [(k, v)]

/-- Restriction of a dict to a key set (keeps bindings whose key is listed). -/
def pyRestrict (d : PyDict) (keys : List String) : PyDict :=
  d.filter (fun kv => keys.contains kv.1)

/-- Failures of the metadata shaper: `MissingKeyError` from the source
(carrying its final message), and Python's `KeyError` from dict
subscripting (unreachable in the builders, present for faithfulness). -/
inductive MetaError where
  | missingKeyError (msg : String)
  | keyError (key : String)
deriving DecidableEq, Repr

/-- Modelled from the spec: the compact text serialization produced by the
external `json` module (`json.dumps`, read back by `json.loads`). The two
are mutually inverse on string-keyed records, so the text is modelled as a
tagged copy of the record it encodes. -/
structure JsonText where
  data : PyDict
deriving DecidableEq, Repr

/-- `json.dumps` on a dict. -/
def json_dumps (d : PyDict) : JsonText := ⟨d⟩

/-- `json.loads` on a text produced by `json_dumps`. -/
def json_loads (t : JsonText) : PyDict := t.data

/-- Python dict subscript `d[key]`: the value, or a `KeyError`. -/
def dictSubscript (d : PyDict) (key : String) : Except MetaError PyVal :=
  match pyGet? d key with
  | some v => Except.ok v
  | none => Except.error (MetaError.keyError key)

/-- The required-key list of `build_pipeline_import` (source line 20),
in declaration order. -/
def pipeline_keys : List String :=
  ["models", "created_by", "creation_date", "description", "job_name",
   "version", "dataset_description", "Accuracy"]

/-- `build_pipeline_import` (source lines 9-38). The `for key in keys` loop
raises `MissingKeyError(key)` on the first absent key in declaration order;
the `except MissingKeyError` handler re-raises with message
`"Missing key: " ++ key`. Otherwise the dict literal of lines 26-35 is
serialized with `json.dumps`. -/
def build_pipeline_import (pipeline : PyDict) : Except MetaError JsonText :=
  match pipeline_keys.find? (fun key => !(pyContains pipeline key)) with
  | some key => Except.error (MetaError.missingKeyError ("Missing key: " ++ key))
  | none => do
    let models ← dictSubscript pipeline "models"
    let created_by ← dictSubscript pipeline "created_by"
    let creation_date ← dictSubscript pipeline "creation_date"
    let description ← dictSubscript pipeline "description"
    let job_name ← dictSubscript pipeline "job_name"
    let version ← dictSubscript pipeline "version"
    let dataset_description ← dictSubscript pipeline "dataset_description"
    let accuracy ← dictSubscript pipeline "Accuracy"
    pure (json_dumps
      [("models", models), ("created_by", created_by),
       ("creation_date", creation_date), ("description", description),
       ("job_name", job_name), ("version", version),
       ("dataset_description", dataset_description), ("Accuracy", accuracy)])

/-- The base dict literal of `build_pipeline_export` (source lines 50-55):
`str(id)` is the string form of the id, taken here as already a string. -/
def pipeline_export_base (name : String) (id : String) (default : Bool)
    (model_ids : PyVal) : PyDict :=
  [("models", model_ids), ("pipeline_id", PyVal.vStr id),
   ("pipeline_name", PyVal.vStr name), ("default", PyVal.vBool default)]

/-- `build_pipeline_export` (source lines 40-58): lay down the base dict,
then `for key in data: pipeline_db[key] = data[key]`. -/
def build_pipeline_export (data : PyDict) (name : String) (id : String)
    (default : Bool) (model_ids : PyVal) : PyDict :=
  data.foldl (fun acc kv => pySet acc kv.1 kv.2)
    (pipeline_export_base name id default model_ids)

/-- The required-key list of `build_model_import` (source line 71),
in declaration order. -/
def model_keys : List String :=
  ["endpoint", "api_key", "content_type", "deployment_platform", "created_by",
   "creation_date", "description", "version", "job_name",
   "dataset_description", "Accuracy"]

/-- `build_model_import` (source lines 60-92), same shape as
`build_pipeline_import` over the model key list and the dict literal of
lines 77-89. -/
def build_model_import (model : PyDict) : Except MetaError JsonText :=
  match model_keys.find? (fun key => !(pyContains model key)) with
  | some key => Except.error (MetaError.missingKeyError ("Missing key: " ++ key))
  | none => do
    let endpoint ← dictSubscript model "endpoint"
    let api_key ← dictSubscript model "api_key"
    let content_type ← dictSubscript model "content_type"
    let deployment_platform ← dictSubscript model "deployment_platform"
    let created_by ← dictSubscript model "created_by"
    let creation_date ← dictSubscript model "creation_date"
    let description ← dictSubscript model "description"
    let version ← dictSubscript model "version"
    let job_name ← dictSubscript model "job_name"
    let dataset_description ← dictSubscript model "dataset_description"
    let accuracy ← dictSubscript model "Accuracy"
    pure (json_dumps
      [("endpoint", endpoint), ("api_key", api_key),
       ("content_type", content_type),
       ("deployment_platform", deployment_platform),
       ("created_by", created_by), ("creation_date", creation_date),
       ("description", description), ("version", version),
       ("job_name", job_name), ("dataset_description", dataset_description),
       ("Accuracy", accuracy)])

/-- The base dict literal of `build_model_export` (source lines 104-110). -/
def model_export_base (id : String) (name : String) (endpoint : String)
    (task_name : String) (version : String) : PyDict :=
  [("model_id", PyVal.vStr id), ("model_name", PyVal.vStr name),
   ("endpoint_name", PyVal.vStr endpoint), ("task", PyVal.vStr task_name),
   ("version", PyVal.vStr version)]

/-- `build_model_export` (source lines 94-113): lay down the base dict,
then `for key in data: model_db[key] = data[key]`. -/
def build_model_export (data : PyDict) (id : String) (name : String)
    (endpoint : String) (task_name : String) (version : String) : PyDict :=
  data.foldl (fun acc kv => pySet acc kv.1 kv.2)
    (model_export_base id name endpoint task_name version)

/-!
## The inference query layer

`datastore/db/queries/inference/__init__.py`. Each function executes one
parameterized SQL statement through a caller-supplied cursor. The three
tables are modelled as lists of rows inside a `Db` state; the generated
`RETURNING id` value comes from a fresh-id counter; `CURRENT_TIMESTAMP`
reads the `now` field. A `DriverOutcome` oracle says whether the driver
fails the statement (connection loss, constraint violation, ...): every
function's `try` body is run when the oracle is `ok` and the `except`
handler fires when it is `err` — and also when the body itself raises
(for example `fetchone()` returning `None` and then `None[0]` failing). -/

/-- A row of the `inference` table (columns used by this layer). -/
structure InferenceRow where
  id : String
  inference : String
  picture_id : String
  user_id : String
  feedback_user_id : Option String
  verified : Option Bool
deriving DecidableEq, Repr

/-- A row of the `object` table (columns used by this layer).
`updated_at` is a timestamp modelled as a `Nat` tick. -/
structure ObjectRow where
  id : String
  inference_id : String
  box_metadata : String
  type_id : Int
  top_id : Option String
  verified_id : Option String
  valid : Option Bool
  updated_at : Option Nat
deriving DecidableEq, Repr

/-- A row of the `seed_obj` table. The score is a float the layer only
stores and returns, never computes with, so it is kept opaque as its
decimal text. -/
structure SeedObjRow where
  id : String
  seed_id : String
  object_id : String
  score : String
deriving DecidableEq, Repr

/-- The database state the cursor operates on. `nextId` generates the ids
returned by `RETURNING id`; `now` is the clock behind `CURRENT_TIMESTAMP`. -/
structure Db where
  inference : List InferenceRow
  object : List ObjectRow
  seed_obj : List SeedObjRow
  nextId : Nat
  now : Nat
deriving DecidableEq, Repr

/-- Whether the driver executes the statement or fails it. -/
inductive DriverOutcome where
  | ok
  | err
deriving DecidableEq, Repr

/-- The exceptions the query layer raises: its four exception classes
(source lines 9-19) and the bare untyped `Exception` some handlers raise. -/
inductive QueryError where
  | inferenceCreationError (msg : String)
  | seedObjectCreationError (msg : String)
  | inferenceNotFoundError (msg : String)
  | inferenceObjectNotFoundError (msg : String)
  | genericException (msg : String)
deriving DecidableEq, Repr

/-- Python `str` of a bool, for error-message interpolation. -/
def pyStrOfBool (b : Bool) : String := if b then "True" else "False"

/-- `new_inference` (source lines 27-63): INSERT into `inference` with bound
parameters `(inference, picture_id, user_id)` RETURNING id. The `type`
parameter is accepted but never used. Driver failure raises
`InferenceCreationError`. -/
def new_inference (ora : DriverOutcome) (db : Db) (inference : String)
    (user_id : String) (picture_id : String) (ty : PyVal) :
    Except QueryError (String × Db) :=
  match ora with
  | .err => Except.error (.inferenceCreationError "Error: inference not uploaded")
  | .ok =>
    let inference_id := toString db.nextId
    let row : InferenceRow :=
      { id := inference_id, inference := inference, picture_id := picture_id,
        user_id := user_id, feedback_user_id := none, verified := none }
    Except.ok (inference_id,
      { db with inference := db.inference ++ [row], nextId := db.nextId + 1 })

/-- The SQL statement `new_inference` executes, as (statement text, bound
parameters) built from its arguments the way source lines 41-59 build them;
the `type` argument appears in neither. -/
def new_inference_stmt (inference : String) (user_id : String)
    (picture_id : String) (ty : PyVal) : String × List String :=
  ("INSERT INTO inference(inference, picture_id, user_id) VALUES (%s,%s,%s) RETURNING id",
   [inference, picture_id, user_id])

/-- `get_inference` (source lines 66-90): SELECT inference by id,
`fetchone()[0]`. A zero-row result makes `fetchone()` return `None`, and
subscripting `None` raises; that and any driver failure are both caught and
re-raised as `InferenceNotFoundError`. -/
def get_inference (ora : DriverOutcome) (db : Db) (inference_id : String) :
    Except QueryError String :=
  match ora with
  | .err => Except.error (.inferenceNotFoundError
      ("Error: could not get inference " ++ inference_id))
  | .ok =>
    match db.inference.find? (fun r => r.id == inference_id) with
    | some r => Except.ok r.inference
    | none => Except.error (.inferenceNotFoundError
        ("Error: could not get inference " ++ inference_id))

/-- `set_inference_feedback_user_id` (source lines 92-112): UPDATE
`feedback_user_id` by id, no existence check, no result inspection; any
failure re-raised as a bare `Exception`. -/
def set_inference_feedback_user_id (ora : DriverOutcome) (db : Db)
    (inference_id : String) (user_id : String) : Except QueryError Db :=
  match ora with
  | .err => Except.error (.genericException
      ("Error: could not set feedback_user_id " ++ user_id ++
        " for inference " ++ inference_id))
  | .ok => Except.ok { db with inference := db.inference.map (fun r =>
      if r.id == inference_id then { r with feedback_user_id := some user_id }
      else r) }

/-- `set_inference_verified` (source lines 115-135): UPDATE `verified` by
id, same pattern. -/
def set_inference_verified (ora : DriverOutcome) (db : Db)
    (inference_id : String) (is_verified : Bool) : Except QueryError Db :=
  match ora with
  | .err => Except.error (.genericException
      ("Error: could not update verified " ++ pyStrOfBool is_verified ++
        " for inference " ++ inference_id))
  | .ok => Except.ok { db with inference := db.inference.map (fun r =>
      if r.id == inference_id then { r with verified := some is_verified }
      else r) }

/-- `new_inference_object` (source lines 143-177): INSERT into `object`
RETURNING id. Driver failure raises `InferenceCreationError` (the same
class `new_inference` raises, with a different message). -/
def new_inference_object (ora : DriverOutcome) (db : Db)
    (inference_id : String) (box_metadata : String) (type_id : Int) :
    Except QueryError (String × Db) :=
  match ora with
  | .err => Except.error
      (.inferenceCreationError "Error: inference object not uploaded")
  | .ok =>
    let object_id := toString db.nextId
    let row : ObjectRow :=
      { id := object_id, inference_id := inference_id,
        box_metadata := box_metadata, type_id := type_id, top_id := none,
        verified_id := none, valid := none, updated_at := none }
    Except.ok (object_id,
      { db with object := db.object ++ [row], nextId := db.nextId + 1 })

/-- `get_inference_object` (source lines 179-205): SELECT * by id; an
explicit `res is None` check raises, and the outer handler turns that and
any driver failure into `InferenceObjectNotFoundError`. -/
def get_inference_object (ora : DriverOutcome) (db : Db)
    (inference_object_id : String) : Except QueryError ObjectRow :=
  match ora with
  | .err => Except.error (.inferenceObjectNotFoundError
      ("Error: could not get inference object for id " ++ inference_object_id))
  | .ok =>
    match db.object.find? (fun r => r.id == inference_object_id) with
    | some r => Except.ok r
    | none => Except.error (.inferenceObjectNotFoundError
        ("Error: could not get inference object for id " ++ inference_object_id))

/-- `get_objects_by_inference` (source lines 207-233): SELECT * by
`inference_id`, `fetchall()`. `fetchall` returns a list — `[]` when no row
matches, never `None`, so the `res is None` branch is dead and an empty
match comes back as `ok []`; only a driver failure reaches the handler and
raises `InferenceObjectNotFoundError`. -/
def get_objects_by_inference (ora : DriverOutcome) (db : Db)
    (inference_id : String) : Except QueryError (List ObjectRow) :=
  match ora with
  | .err => Except.error (.inferenceObjectNotFoundError
      ("Error: could not get objects for inference " ++ inference_id))
  | .ok => Except.ok (db.object.filter (fun r => r.inference_id == inference_id))

/-- `set_inference_object_top_id` (source lines 235-255): UPDATE `top_id`
by id, no existence check; failures re-raised as a bare `Exception`. -/
def set_inference_object_top_id (ora : DriverOutcome) (db : Db)
    (inference_object_id : String) (top_id : String) : Except QueryError Db :=
  match ora with
  | .err => Except.error (.genericException
      ("Error: could not set top_id " ++ top_id ++ " for inference " ++
        inference_object_id))
  | .ok => Except.ok { db with object := db.object.map (fun r =>
      if r.id == inference_object_id then { r with top_id := some top_id }
      else r) }

/-- `get_inference_object_top_id` (source lines 257-281): SELECT `top_id`
by id, `fetchone()[0]`. A zero-row result (subscripting `None`) and a
driver failure are both re-raised as a bare untyped `Exception`, not as one
of the module's typed exception classes. -/
def get_inference_object_top_id (ora : DriverOutcome) (db : Db)
    (inference_object_id : String) : Except QueryError (Option String) :=
  match ora with
  | .err => Except.error (.genericException
      ("Error: could not get top_inference_id for inference " ++
        inference_object_id))
  | .ok =>
    match db.object.find? (fun r => r.id == inference_object_id) with
    | some r => Except.ok r.top_id
    | none => Except.error (.genericException
        ("Error: could not get top_inference_id for inference " ++
          inference_object_id))

/-- `set_inference_object_verified_id` (source lines 284-305): UPDATE sets
`verified_id = %s, updated_at = CURRENT_TIMESTAMP` by id; failures
re-raised as a bare `Exception`. -/
def set_inference_object_verified_id (ora : DriverOutcome) (db : Db)
    (inference_object_id : String) (verified_id : String) :
    Except QueryError Db :=
  match ora with
  | .err => Except.error (.genericException
      ("Error: could not update verified_id for object " ++ inference_object_id))
  | .ok => Except.ok { db with object := db.object.map (fun r =>
      if r.id == inference_object_id then
        { r with verified_id := some verified_id, updated_at := some db.now }
      else r) }

/-- `set_inference_object_valid` (source lines 307-327): UPDATE `valid` by
id, no existence check; failures re-raised as a bare `Exception`. -/
def set_inference_object_valid (ora : DriverOutcome) (db : Db)
    (inference_object_id : String) (is_valid : Bool) : Except QueryError Db :=
  match ora with
  | .err => Except.error (.genericException
      ("Error: could not update valid for object " ++ inference_object_id))
  | .ok => Except.ok { db with object := db.object.map (fun r =>
      if r.id == inference_object_id then { r with valid := some is_valid }
      else r) }

/-- `new_seed_object` (source lines 336-371): INSERT into `seed_obj`
RETURNING id; driver failure raises `SeedObjectCreationError`. -/
def new_seed_object (ora : DriverOutcome) (db : Db) (seed_id : String)
    (object_id : String) (score : String) : Except QueryError (String × Db) :=
  match ora with
  | .err => Except.error
      (.seedObjectCreationError "Error: seed object not uploaded")
  | .ok =>
    let seed_obj_id := toString db.nextId
    let row : SeedObjRow :=
      { id := seed_obj_id, seed_id := seed_id, object_id := object_id,
        score := score }
    Except.ok (seed_obj_id,
      { db with seed_obj := db.seed_obj ++ [row], nextId := db.nextId + 1 })

/-- An empty database, used for concrete instances. -/
def emptyDb : Db :=
  { inference := [], object := [], seed_obj := [], nextId := 0, now := 0 }

/-! ## Dictionary lemmas -/

theorem pyGet?_nil (k : String) : pyGet? [] k = none := rfl

theorem pyGet?_cons (k₀ : String) (v₀ : PyVal) (t : PyDict) (k : String) :
    pyGet? ((k₀, v₀) :: t) k = if k₀ = k then some v₀ else pyGet? t k := by
  by_cases h : k₀ = k
  · rw [if_pos h, pyGet?, List.find?_cons_of_pos _ (by simpa using h)]
    rfl
  · rw [if_neg h, pyGet?, List.find?_cons_of_neg _ (by simpa using h)]
    rfl

theorem pyContains_nil (k : String) : pyContains [] k = false := rfl

theorem pyContains_cons_true (k₀ : String) (v₀ : PyVal) (t : PyDict)
    (k : String) :
    pyContains ((k₀, v₀) :: t) k = true ↔ (k₀ = k ∨ pyContains t k = true) := by
  rw [pyContains, pyGet?_cons]
  by_cases h : k₀ = k
  · simp [h]
  · simp [h, pyContains]

theorem pyContains_cons_false (k₀ : String) (v₀ : PyVal) (t : PyDict)
    (k : String) :
    pyContains ((k₀, v₀) :: t) k = false ↔
      (¬k₀ = k ∧ pyContains t k = false) := by
  rw [pyContains, pyGet?_cons]
  by_cases h : k₀ = k
  · simp [h]
  · simp [h, pyContains]

theorem pyContains_iff_mem (d : PyDict) (k : String) :
    pyContains d k = true ↔ k ∈ d.map Prod.fst := by
  induction d with
  | nil => simp [pyContains_nil]
  | cons kv t ih =>
    obtain ⟨k₀, v₀⟩ := kv
    rw [List.map_cons, List.mem_cons, pyContains_cons_true]
    constructor
    · rintro (h | h)
      · exact Or.inl h.symm
      · exact Or.inr (ih.mp h)
    · rintro (h | h)
      · exact Or.inl h.symm
      · exact Or.inr (ih.mpr h)

theorem pyGet?_isSome_of_contains (d : PyDict) (k : String)
    (h : pyContains d k = true) : ∃ v, pyGet? d k = some v := by
  rw [pyContains] at h
  exact Option.isSome_iff_exists.mp h

theorem pyGet?_map_update_same (t : PyDict) (k : String) (v : PyVal)
    (h : t.any (fun kv => kv.1 == k) = true) :
    pyGet? (t.map (fun kv => if kv.1 = k then (kv.1, v) else kv)) k =
      some v := by
  induction t with
  | nil => simp at h
  | cons kv t ih =>
    obtain ⟨k₀, v₀⟩ := kv
    simp only [List.map_cons]
    by_cases hk : k₀ = k
    · rw [if_pos hk, pyGet?_cons, if_pos hk]
    · rw [if_neg hk, pyGet?_cons, if_neg hk]
      apply ih
      simp only [List.any_cons, Bool.or_eq_true, beq_iff_eq] at h
      rcases h with h | h
      · exact absurd h hk
      · exact h

theorem pyGet?_map_update_other (t : PyDict) (k k' : String) (v : PyVal)
    (hne : k' ≠ k) :
    pyGet? (t.map (fun kv => if kv.1 = k then (kv.1, v) else kv)) k' =
      pyGet? t k' := by
  induction t with
  | nil => rfl
  | cons kv t ih =>
    obtain ⟨k₀, v₀⟩ := kv
    simp only [List.map_cons]
    by_cases hk : k₀ = k
    · have h₀ : ¬k₀ = k' := fun h => hne (h ▸ hk)
      rw [if_pos hk, pyGet?_cons, pyGet?_cons, if_neg h₀, if_neg h₀]
      exact ih
    · rw [if_neg hk, pyGet?_cons, pyGet?_cons]
      by_cases hk' : k₀ = k'
      · rw [if_pos hk', if_pos hk']
      · rw [if_neg hk', if_neg hk']
        exact ih

theorem pyGet?_append_missing (t : PyDict) (k : String) (v : PyVal)
    (h : t.any (fun kv => kv.1 == k) = false) :
    pyGet? (t ++ [(k, v)]) k = some v := by
  induction t with
  | nil => rw [List.nil_append, pyGet?_cons, if_pos rfl]
  | cons kv t ih =>
    obtain ⟨k₀, v₀⟩ := kv
    simp only [List.any_cons, Bool.or_eq_false_iff, beq_eq_false_iff_ne] at h
    rw [List.cons_append, pyGet?_cons, if_neg h.1]
    exact ih h.2

theorem pyGet?_append_other (t : PyDict) (k k' : String) (v : PyVal)
    (hne : k' ≠ k) :
    pyGet? (t ++ [(k, v)]) k' = pyGet? t k' := by
  induction t with
  | nil =>
    rw [List.nil_append, pyGet?_cons, if_neg (fun h => hne h.symm)]
  | cons kv t ih =>
    obtain ⟨k₀, v₀⟩ := kv
    rw [List.cons_append, pyGet?_cons, pyGet?_cons]
    by_cases hk' : k₀ = k'
    · rw [if_pos hk', if_pos hk']
    · rw [if_neg hk', if_neg hk']
      exact ih

theorem pySet_get_same (d : PyDict) (k : String) (v : PyVal) :
    pyGet? (pySet d k v) k = some v := by
  by_cases h : d.any (fun kv => kv.1 == k) = true
  · rw [pySet, if_pos h]
    exact pyGet?_map_update_same d k v h
  · rw [pySet, if_neg h]
    exact pyGet?_append_missing d k v (Bool.eq_false_iff.mpr h)

theorem pySet_get_other (d : PyDict) (k k' : String) (v : PyVal)
    (hne : k' ≠ k) : pyGet? (pySet d k v) k' = pyGet? d k' := by
  by_cases h : d.any (fun kv => kv.1 == k) = true
  · rw [pySet, if_pos h]
    exact pyGet?_map_update_other d k k' v hne
  · rw [pySet, if_neg h]
    exact pyGet?_append_other d k k' v hne

/-- Folding `pySet` over entries whose keys avoid `k` leaves the binding of
`k` in the accumulator untouched. -/
theorem foldl_pySet_get_of_not_contains (l : List (String × PyVal))
    (acc : PyDict) (k : String) (h : pyContains l k = false) :
    pyGet? (l.foldl (fun a kv => pySet a kv.1 kv.2) acc) k = pyGet? acc k := by
  induction l generalizing acc with
  | nil => rfl
  | cons kv t ih =>
    obtain ⟨k₀, v₀⟩ := kv
    obtain ⟨h1, h2⟩ := (pyContains_cons_false k₀ v₀ t k).mp h
    rw [List.foldl_cons, ih _ h2]
    exact pySet_get_other acc k₀ k v₀ (fun hh => h1 hh.symm)

/-- Folding `pySet` over a duplicate-free entry list binds each of its keys
to its value from the list, whatever the accumulator held. -/
theorem foldl_pySet_get_of_contains (l : List (String × PyVal))
    (acc : PyDict) (k : String) (hnd : (l.map Prod.fst).Nodup)
    (h : pyContains l k = true) :
    pyGet? (l.foldl (fun a kv => pySet a kv.1 kv.2) acc) k = pyGet? l k := by
  induction l generalizing acc with
  | nil => simp [pyContains_nil] at h
  | cons kv t ih =>
    obtain ⟨k₀, v₀⟩ := kv
    rw [List.map_cons, List.nodup_cons] at hnd
    rw [List.foldl_cons]
    by_cases hk : k₀ = k
    · subst hk
      have hnc : pyContains t k₀ = false := by
        cases hc : pyContains t k₀
        · rfl
        · exact absurd ((pyContains_iff_mem t k₀).mp hc) hnd.1
      rw [foldl_pySet_get_of_not_contains t _ k₀ hnc, pySet_get_same,
        pyGet?_cons, if_pos rfl]
    · have ht : pyContains t k = true := by
        rcases (pyContains_cons_true k₀ v₀ t k).mp h with h' | h'
        · exact absurd h' hk
        · exact h'
      rw [ih _ hnd.2 ht, pyGet?_cons, if_neg hk]

/-- The keys of a `pySet`-fold are the accumulator's keys together with the
folded entries' keys. -/
theorem foldl_pySet_contains (l : List (String × PyVal)) (acc : PyDict)
    (k : String) :
    pyContains (l.foldl (fun a kv => pySet a kv.1 kv.2) acc) k = true ↔
      (pyContains acc k = true ∨ pyContains l k = true) := by
  induction l generalizing acc with
  | nil => simp [pyContains_nil]
  | cons kv t ih =>
    obtain ⟨k₀, v₀⟩ := kv
    rw [List.foldl_cons, ih, pyContains_cons_true]
    have hset : pyContains (pySet acc k₀ v₀) k = true ↔
        (k₀ = k ∨ pyContains acc k = true) := by
      by_cases hk : k₀ = k
      · subst hk
        rw [pyContains, pySet_get_same]
        simp
      · rw [pyContains, pySet_get_other acc k₀ k v₀ (fun hh => hk hh.symm)]
        rw [← pyContains]
        simp [hk]
    rw [hset]
    tauto

/-! ## Characterizations of the import builders -/

/-- On a record containing every required key, `build_pipeline_import`
serializes exactly the required keys in declaration order, each bound to
its value from the input. -/
theorem build_pipeline_import_ok (pipeline : PyDict)
    (h : ∀ k ∈ pipeline_keys, pyContains pipeline k = true) :
    ∃ l, build_pipeline_import pipeline = Except.ok (json_dumps l) ∧
      l.map Prod.fst = pipeline_keys ∧
      (∀ k v, (k, v) ∈ l → pyGet? pipeline k = some v) := by
  have hfind :
      pipeline_keys.find? (fun key => !(pyContains pipeline key)) = none := by
    rw [List.find?_eq_none]
    intro x hx
    simp [h x hx]
  obtain ⟨v1, e1⟩ := pyGet?_isSome_of_contains _ _ (h "models" (by decide))
  obtain ⟨v2, e2⟩ := pyGet?_isSome_of_contains _ _ (h "created_by" (by decide))
  obtain ⟨v3, e3⟩ :=
    pyGet?_isSome_of_contains _ _ (h "creation_date" (by decide))
  obtain ⟨v4, e4⟩ := pyGet?_isSome_of_contains _ _ (h "description" (by decide))
  obtain ⟨v5, e5⟩ := pyGet?_isSome_of_contains _ _ (h "job_name" (by decide))
  obtain ⟨v6, e6⟩ := pyGet?_isSome_of_contains _ _ (h "version" (by decide))
  obtain ⟨v7, e7⟩ :=
    pyGet?_isSome_of_contains _ _ (h "dataset_description" (by decide))
  obtain ⟨v8, e8⟩ := pyGet?_isSome_of_contains _ _ (h "Accuracy" (by decide))
  refine ⟨[("models", v1), ("created_by", v2), ("creation_date", v3),
    ("description", v4), ("job_name", v5), ("version", v6),
    ("dataset_description", v7), ("Accuracy", v8)], ?_, rfl, ?_⟩
  · unfold build_pipeline_import dictSubscript
    rw [hfind, e1, e2, e3, e4, e5, e6, e7, e8]
    rfl
  · intro k v hkv
    simp only [List.mem_cons, List.not_mem_nil, or_false,
      Prod.mk.injEq] at hkv
    rcases hkv with hp1 | hp2 | hp3 | hp4 | hp5 | hp6 | hp7 | hp8 <;>
      first
      | (obtain ⟨rfl, rfl⟩ := hp1; exact e1)
      | (obtain ⟨rfl, rfl⟩ := hp2; exact e2)
      | (obtain ⟨rfl, rfl⟩ := hp3; exact e3)
      | (obtain ⟨rfl, rfl⟩ := hp4; exact e4)
      | (obtain ⟨rfl, rfl⟩ := hp5; exact e5)
      | (obtain ⟨rfl, rfl⟩ := hp6; exact e6)
      | (obtain ⟨rfl, rfl⟩ := hp7; exact e7)
      | (obtain ⟨rfl, rfl⟩ := hp8; exact e8)

/-- On a record containing every required key, `build_model_import`
serializes exactly the required keys in declaration order, each bound to
its value from the input. -/
theorem build_model_import_ok (model : PyDict)
    (h : ∀ k ∈ model_keys, pyContains model k = true) :
    ∃ l, build_model_import model = Except.ok (json_dumps l) ∧
      l.map Prod.fst = model_keys ∧
      (∀ k v, (k, v) ∈ l → pyGet? model k = some v) := by
  have hfind :
      model_keys.find? (fun key => !(pyContains model key)) = none := by
    rw [List.find?_eq_none]
    intro x hx
    simp [h x hx]
  obtain ⟨v1, e1⟩ := pyGet?_isSome_of_contains _ _ (h "endpoint" (by decide))
  obtain ⟨v2, e2⟩ := pyGet?_isSome_of_contains _ _ (h "api_key" (by decide))
  obtain ⟨v3, e3⟩ :=
    pyGet?_isSome_of_contains _ _ (h "content_type" (by decide))
  obtain ⟨v4, e4⟩ :=
    pyGet?_isSome_of_contains _ _ (h "deployment_platform" (by decide))
  obtain ⟨v5, e5⟩ := pyGet?_isSome_of_contains _ _ (h "created_by" (by decide))
  obtain ⟨v6, e6⟩ :=
    pyGet?_isSome_of_contains _ _ (h "creation_date" (by decide))
  obtain ⟨v7, e7⟩ := pyGet?_isSome_of_contains _ _ (h "description" (by decide))
  obtain ⟨v8, e8⟩ := pyGet?_isSome_of_contains _ _ (h "version" (by decide))
  obtain ⟨v9, e9⟩ := pyGet?_isSome_of_contains _ _ (h "job_name" (by decide))
  obtain ⟨v10, e10⟩ :=
    pyGet?_isSome_of_contains _ _ (h "dataset_description" (by decide))
  obtain ⟨v11, e11⟩ := pyGet?_isSome_of_contains _ _ (h "Accuracy" (by decide))
  refine ⟨[("endpoint", v1), ("api_key", v2), ("content_type", v3),
    ("deployment_platform", v4), ("created_by", v5), ("creation_date", v6),
    ("description", v7), ("version", v8), ("job_name", v9),
    ("dataset_description", v10), ("Accuracy", v11)], ?_, rfl, ?_⟩
  · unfold build_model_import dictSubscript
    rw [hfind, e1, e2, e3, e4, e5, e6, e7, e8, e9, e10, e11]
    rfl
  · intro k v hkv
    simp only [List.mem_cons, List.not_mem_nil, or_false,
      Prod.mk.injEq] at hkv
    rcases hkv with
      hm1 | hm2 | hm3 | hm4 | hm5 | hm6 | hm7 | hm8 | hm9 | hm10 | hm11 <;>
      first
      | (obtain ⟨rfl, rfl⟩ := hm1; exact e1)
      | (obtain ⟨rfl, rfl⟩ := hm2; exact e2)
      | (obtain ⟨rfl, rfl⟩ := hm3; exact e3)
      | (obtain ⟨rfl, rfl⟩ := hm4; exact e4)
      | (obtain ⟨rfl, rfl⟩ := hm5; exact e5)
      | (obtain ⟨rfl, rfl⟩ := hm6; exact e6)
      | (obtain ⟨rfl, rfl⟩ := hm7; exact e7)
      | (obtain ⟨rfl, rfl⟩ := hm8; exact e8)
      | (obtain ⟨rfl, rfl⟩ := hm9; exact e9)
      | (obtain ⟨rfl, rfl⟩ := hm10; exact e10)
      | (obtain ⟨rfl, rfl⟩ := hm11; exact e11)

/-- On a record missing some key of `keys`, the first-missing-key scan of
the import builders finds the first key of `keys`, in declaration order,
that the record lacks. -/
theorem import_find_missing (keys : List String) (d : PyDict)
    (h : ∃ k ∈ keys, pyContains d k = false) :
    ∃ k pre suf, keys.find? (fun key => !(pyContains d key)) = some k ∧
      keys = pre ++ k :: suf ∧ pyContains d k = false ∧
      (∀ k' ∈ pre, pyContains d k' = true) := by
  obtain ⟨k0, hk0, hc0⟩ := h
  have hsome : (keys.find? (fun key => !(pyContains d key))).isSome := by
    rw [List.find?_isSome]
    exact ⟨k0, hk0, by simp [hc0]⟩
  obtain ⟨k, hfind⟩ := Option.isSome_iff_exists.mp hsome
  obtain ⟨hpk, pre, suf, hsplit, hpre⟩ := List.find?_eq_some.mp hfind
  refine ⟨k, pre, suf, hfind, hsplit, ?_, ?_⟩
  · simpa using hpk
  · intro k' hk'
    simpa using hpre k' hk'

/-- Restricting a dict keeps exactly the bindings whose key is listed. -/
theorem pyRestrict_get (d : PyDict) (keys : List String) (k : String) :
    pyGet? (pyRestrict d keys) k =
      if k ∈ keys then pyGet? d k else none := by
  induction d with
  | nil =>
    rw [pyRestrict, List.filter_nil]
    by_cases hk : k ∈ keys
    · rw [if_pos hk]
    · rw [if_neg hk]
      rfl
  | cons kv t ih =>
    obtain ⟨k₀, v₀⟩ := kv
    rw [pyRestrict, List.filter_cons] at *
    by_cases h₀ : k₀ ∈ keys
    · rw [if_pos (by simpa using h₀), pyGet?_cons]
      by_cases hk : k₀ = k
      · subst hk
        rw [if_pos rfl, if_pos h₀, pyGet?_cons, if_pos rfl]
      · rw [if_neg hk, ih, pyGet?_cons, if_neg hk]
    · rw [if_neg (by simpa using h₀), ih]
      by_cases hk : k ∈ keys
      · have hne : ¬k₀ = k := fun hh => h₀ (hh ▸ hk)
        rw [if_pos hk, if_pos hk, pyGet?_cons, if_neg hne]
      · rw [if_neg hk, if_neg hk]

/-- A successful lookup comes from a binding of the dict. -/
theorem pyGet?_some_mem (d : PyDict) (k : String) (v : PyVal)
    (h : pyGet? d k = some v) : (k, v) ∈ d := by
  induction d with
  | nil => simp [pyGet?_nil] at h
  | cons kv t ih =>
    obtain ⟨k₀, v₀⟩ := kv
    rw [pyGet?_cons] at h
    by_cases hk : k₀ = k
    · rw [if_pos hk] at h
      subst hk
      injection h with h'
      subst h'
      exact List.mem_cons_self _ _
    · rw [if_neg hk] at h
      exact List.mem_cons_of_mem _ (ih h)

/-- A dict without the key has no binding for it. -/
theorem pyGet?_eq_none_of_not_contains (d : PyDict) (k : String)
    (h : pyContains d k = false) : pyGet? d k = none := by
  rw [pyContains] at h
  exact Option.not_isSome_iff_eq_none.mp (by simp [h])

/-- Mapping a function that fixes every element is the identity. -/
theorem map_id_of_all {α : Type} (l : List α) (f : α → α)
    (h : ∀ x ∈ l, f x = x) : l.map f = l := by
  induction l with
  | nil => rfl
  | cons a t ih =>
    rw [List.map_cons, h a (List.mem_cons_self a t),
      ih (fun x hx => h x (List.mem_cons_of_mem a hx))]

/-! ## The claims -/

/-- Claim C1: a record containing every required key (plus arbitrary extra
keys) makes `build_pipeline_import` and `build_model_import` succeed, and
the serialized record holds exactly the required keys, in declaration
order, each bound to its original value from the input, with extra keys
dropped. -/
theorem claim_C1 (pipeline model : PyDict)
    (hp : ∀ k ∈ pipeline_keys, pyContains pipeline k = true)
    (hm : ∀ k ∈ model_keys, pyContains model k = true) :
    (∃ l, build_pipeline_import pipeline = Except.ok (json_dumps l) ∧
      l.map Prod.fst = pipeline_keys ∧
      (∀ k v, (k, v) ∈ l → pyGet? pipeline k = some v)) ∧
    (∃ l, build_model_import model = Except.ok (json_dumps l) ∧
      l.map Prod.fst = model_keys ∧
      (∀ k v, (k, v) ∈ l → pyGet? model k = some v)) :=
  ⟨build_pipeline_import_ok pipeline hp, build_model_import_ok model hm⟩

/-- The concrete pipeline record of the spec's scenario, with one extra
key, used to instantiate C1. -/
def pipelineRecordEx : PyDict :=
  [("extra", PyVal.vStr "dropped"), ("models", PyVal.vStrList ["m1"]),
   ("created_by", PyVal.vStr "u1"), ("creation_date", PyVal.vStr "2024-01-01"),
   ("description", PyVal.vStr "d"), ("job_name", PyVal.vStr "j"),
   ("version", PyVal.vStr "1"), ("dataset_description", PyVal.vStr "dd"),
   ("Accuracy", PyVal.vStr "0.9")]

/-- A concrete model record with every required key and one extra key,
used to instantiate C1 and C7. -/
def modelRecordEx : PyDict :=
  [("endpoint", PyVal.vStr "e"), ("api_key", PyVal.vStr "k"),
   ("content_type", PyVal.vStr "c"), ("deployment_platform", PyVal.vStr "p"),
   ("created_by", PyVal.vStr "u1"), ("creation_date", PyVal.vStr "2024-01-01"),
   ("description", PyVal.vStr "d"), ("version", PyVal.vStr "1"),
   ("job_name", PyVal.vStr "j"), ("dataset_description", PyVal.vStr "dd"),
   ("Accuracy", PyVal.vStr "0.9"), ("extra", PyVal.vStr "dropped")]

/-- Witness for C1 at the concrete records. -/
theorem claim_C1_witness :
    (∃ l, build_pipeline_import pipelineRecordEx = Except.ok (json_dumps l) ∧
      l.map Prod.fst = pipeline_keys ∧
      (∀ k v, (k, v) ∈ l → pyGet? pipelineRecordEx k = some v)) ∧
    (∃ l, build_model_import modelRecordEx = Except.ok (json_dumps l) ∧
      l.map Prod.fst = model_keys ∧
      (∀ k v, (k, v) ∈ l → pyGet? modelRecordEx k = some v)) :=
  claim_C1 pipelineRecordEx modelRecordEx (by decide) (by decide)

/-- Claim C2: a record missing at least one required key makes
`build_pipeline_import` and `build_model_import` fail with a
`MissingKeyError` naming exactly the first absent required key in
declaration order of the required-key list, and no serialization is
produced. -/
theorem claim_C2 (pipeline model : PyDict)
    (hp : ∃ k ∈ pipeline_keys, pyContains pipeline k = false)
    (hm : ∃ k ∈ model_keys, pyContains model k = false) :
    (∃ k pre suf, pipeline_keys = pre ++ k :: suf ∧
      pyContains pipeline k = false ∧
      (∀ k' ∈ pre, pyContains pipeline k' = true) ∧
      build_pipeline_import pipeline =
        Except.error (MetaError.missingKeyError ("Missing key: " ++ k))) ∧
    (∃ k pre suf, model_keys = pre ++ k :: suf ∧
      pyContains model k = false ∧
      (∀ k' ∈ pre, pyContains model k' = true) ∧
      build_model_import model =
        Except.error (MetaError.missingKeyError ("Missing key: " ++ k))) := by
  constructor
  · obtain ⟨k, pre, suf, hfind, hsplit, hmiss, hpre⟩ :=
      import_find_missing pipeline_keys pipeline hp
    refine ⟨k, pre, suf, hsplit, hmiss, hpre, ?_⟩
    unfold build_pipeline_import
    rw [hfind]
  · obtain ⟨k, pre, suf, hfind, hsplit, hmiss, hpre⟩ :=
      import_find_missing model_keys model hm
    refine ⟨k, pre, suf, hsplit, hmiss, hpre, ?_⟩
    unfold build_model_import
    rw [hfind]

/-- The spec scenario's pipeline record without `Accuracy`, for C2. -/
def pipelineRecordNoAcc : PyDict :=
  [("models", PyVal.vStrList ["m1"]), ("created_by", PyVal.vStr "u1"),
   ("creation_date", PyVal.vStr "2024-01-01"), ("description", PyVal.vStr "d"),
   ("job_name", PyVal.vStr "j"), ("version", PyVal.vStr "1"),
   ("dataset_description", PyVal.vStr "dd")]

/-- A model record missing `api_key`, for C2. -/
def modelRecordNoKey : PyDict :=
  [("endpoint", PyVal.vStr "e"), ("content_type", PyVal.vStr "c"),
   ("deployment_platform", PyVal.vStr "p"), ("created_by", PyVal.vStr "u1"),
   ("creation_date", PyVal.vStr "2024-01-01"), ("description", PyVal.vStr "d"),
   ("version", PyVal.vStr "1"), ("job_name", PyVal.vStr "j"),
   ("dataset_description", PyVal.vStr "dd"), ("Accuracy", PyVal.vStr "0.9")]

/-- Witness for C2 at the concrete records. -/
theorem claim_C2_witness :
    (∃ k pre suf, pipeline_keys = pre ++ k :: suf ∧
      pyContains pipelineRecordNoAcc k = false ∧
      (∀ k' ∈ pre, pyContains pipelineRecordNoAcc k' = true) ∧
      build_pipeline_import pipelineRecordNoAcc =
        Except.error (MetaError.missingKeyError ("Missing key: " ++ k))) ∧
    (∃ k pre suf, model_keys = pre ++ k :: suf ∧
      pyContains modelRecordNoKey k = false ∧
      (∀ k' ∈ pre, pyContains modelRecordNoKey k' = true) ∧
      build_model_import modelRecordNoKey =
        Except.error (MetaError.missingKeyError ("Missing key: " ++ k))) :=
  claim_C2 pipelineRecordNoAcc modelRecordNoKey
    (⟨"Accuracy", by decide, by decide⟩) (⟨"api_key", by decide, by decide⟩)

/-- Counterexample to claim C3 as stated: `get_inference_object_top_id` on
a zero-row result surfaces a bare untyped `Exception`, not the typed
not-found error the claim requires of every read operation. -/
theorem claim_C3_counterexample :
    get_inference_object_top_id DriverOutcome.ok emptyDb "a" =
      Except.error (QueryError.genericException
        "Error: could not get top_inference_id for inference a") ∧
    ¬(∃ m, get_inference_object_top_id DriverOutcome.ok emptyDb "a" =
        Except.error (QueryError.inferenceObjectNotFoundError m)) := by
  constructor
  · rfl
  · rintro ⟨m, hm⟩
    rw [show get_inference_object_top_id DriverOutcome.ok emptyDb "a" =
      Except.error (QueryError.genericException
        "Error: could not get top_inference_id for inference a") from rfl] at hm
    exact QueryError.noConfusion (Except.error.inj hm)

/-- Claim C3 as amended: `get_inference` and `get_inference_object`
collapse the zero-row case and the driver-failure case into their typed
not-found errors; `get_objects_by_inference` returns the matching rows
(the empty list included) and raises its typed not-found error only on
driver failure; `get_inference_object_top_id` raises a bare untyped
`Exception` both on zero rows and on driver failure. -/
theorem claim_C3 (db : Db) (iid oid : String) :
    (get_inference DriverOutcome.err db iid =
      Except.error (QueryError.inferenceNotFoundError
        ("Error: could not get inference " ++ iid))) ∧
    (db.inference.find? (fun r => r.id == iid) = none →
      get_inference DriverOutcome.ok db iid =
        Except.error (QueryError.inferenceNotFoundError
          ("Error: could not get inference " ++ iid))) ∧
    (get_inference_object DriverOutcome.err db oid =
      Except.error (QueryError.inferenceObjectNotFoundError
        ("Error: could not get inference object for id " ++ oid))) ∧
    (db.object.find? (fun r => r.id == oid) = none →
      get_inference_object DriverOutcome.ok db oid =
        Except.error (QueryError.inferenceObjectNotFoundError
          ("Error: could not get inference object for id " ++ oid))) ∧
    (get_objects_by_inference DriverOutcome.ok db iid =
      Except.ok (db.object.filter (fun r => r.inference_id == iid))) ∧
    (get_objects_by_inference DriverOutcome.err db iid =
      Except.error (QueryError.inferenceObjectNotFoundError
        ("Error: could not get objects for inference " ++ iid))) ∧
    (get_inference_object_top_id DriverOutcome.err db oid =
      Except.error (QueryError.genericException
        ("Error: could not get top_inference_id for inference " ++ oid))) ∧
    (db.object.find? (fun r => r.id == oid) = none →
      get_inference_object_top_id DriverOutcome.ok db oid =
        Except.error (QueryError.genericException
          ("Error: could not get top_inference_id for inference " ++ oid))) := by
  refine ⟨rfl, ?_, rfl, ?_, rfl, rfl, rfl, ?_⟩
  · intro h
    simp [get_inference, h]
  · intro h
    simp [get_inference_object, h]
  · intro h
    simp [get_inference_object_top_id, h]

/-- Witness for the amended C3 at the empty database. -/
theorem claim_C3_witness :
    (get_inference DriverOutcome.err emptyDb "a" =
      Except.error (QueryError.inferenceNotFoundError
        ("Error: could not get inference " ++ "a"))) ∧
    ((emptyDb.inference.find? (fun r => r.id == "a") = none →
      get_inference DriverOutcome.ok emptyDb "a" =
        Except.error (QueryError.inferenceNotFoundError
          ("Error: could not get inference " ++ "a")))) ∧
    (get_inference_object DriverOutcome.err emptyDb "b" =
      Except.error (QueryError.inferenceObjectNotFoundError
        ("Error: could not get inference object for id " ++ "b"))) ∧
    ((emptyDb.object.find? (fun r => r.id == "b") = none →
      get_inference_object DriverOutcome.ok emptyDb "b" =
        Except.error (QueryError.inferenceObjectNotFoundError
          ("Error: could not get inference object for id " ++ "b")))) ∧
    (get_objects_by_inference DriverOutcome.ok emptyDb "a" =
      Except.ok (emptyDb.object.filter (fun r => r.inference_id == "a"))) ∧
    (get_objects_by_inference DriverOutcome.err emptyDb "a" =
      Except.error (QueryError.inferenceObjectNotFoundError
        ("Error: could not get objects for inference " ++ "a"))) ∧
    (get_inference_object_top_id DriverOutcome.err emptyDb "b" =
      Except.error (QueryError.genericException
        ("Error: could not get top_inference_id for inference " ++ "b"))) ∧
    ((emptyDb.object.find? (fun r => r.id == "b") = none →
      get_inference_object_top_id DriverOutcome.ok emptyDb "b" =
        Except.error (QueryError.genericException
          ("Error: could not get top_inference_id for inference " ++ "b")))) :=
  claim_C3 emptyDb "a" "b"

/-- Counterexample to claim C4 as stated: on a failing insert,
`new_inference_object` raises `InferenceCreationError` — the very same
error kind `new_inference` raises — not an object-creation error distinct
from the inference one. -/
theorem claim_C4_counterexample :
    new_inference_object DriverOutcome.err emptyDb "i" "b" 0 =
      Except.error (QueryError.inferenceCreationError
        "Error: inference object not uploaded") ∧
    new_inference DriverOutcome.err emptyDb "inf" "u" "p" PyVal.vNone =
      Except.error (QueryError.inferenceCreationError
        "Error: inference not uploaded") :=
  ⟨rfl, rfl⟩

/-- Claim C4 as amended: on a failing insert, `new_inference` and
`new_inference_object` both raise the same `InferenceCreationError` kind
(with different messages), and `new_seed_object` raises
`SeedObjectCreationError`. -/
theorem claim_C4 (db : Db) (inf uid pid : String) (ty : PyVal)
    (iid box : String) (tid : Int) (sid obid score : String) :
    new_inference DriverOutcome.err db inf uid pid ty =
      Except.error (QueryError.inferenceCreationError
        "Error: inference not uploaded") ∧
    new_inference_object DriverOutcome.err db iid box tid =
      Except.error (QueryError.inferenceCreationError
        "Error: inference object not uploaded") ∧
    new_seed_object DriverOutcome.err db sid obid score =
      Except.error (QueryError.seedObjectCreationError
        "Error: seed object not uploaded") :=
  ⟨rfl, rfl, rfl⟩

/-- Claim C5: every update setter — `set_inference_feedback_user_id`,
`set_inference_verified`, and the object setters
`set_inference_object_top_id`, `set_inference_object_verified_id` and
`set_inference_object_valid` — performs an unconditional update with no
existence check: whenever the statement executes it returns normally, and
when zero rows match the id it succeeds silently, leaving the database
unchanged. -/
theorem claim_C5 (db : Db) (inference_id user_id : String)
    (is_verified : Bool) (object_id top_id verified_id : String)
    (is_valid : Bool) :
    (∃ db', set_inference_feedback_user_id DriverOutcome.ok db inference_id
      user_id = Except.ok db') ∧
    (∃ db', set_inference_verified DriverOutcome.ok db inference_id
      is_verified = Except.ok db') ∧
    (∃ db', set_inference_object_top_id DriverOutcome.ok db object_id
      top_id = Except.ok db') ∧
    (∃ db', set_inference_object_verified_id DriverOutcome.ok db object_id
      verified_id = Except.ok db') ∧
    (∃ db', set_inference_object_valid DriverOutcome.ok db object_id
      is_valid = Except.ok db') ∧
    (db.inference.all (fun r => !(r.id == inference_id)) = true →
      set_inference_feedback_user_id DriverOutcome.ok db inference_id
        user_id = Except.ok db ∧
      set_inference_verified DriverOutcome.ok db inference_id
        is_verified = Except.ok db) ∧
    (db.object.all (fun r => !(r.id == object_id)) = true →
      set_inference_object_top_id DriverOutcome.ok db object_id
        top_id = Except.ok db ∧
      set_inference_object_verified_id DriverOutcome.ok db object_id
        verified_id = Except.ok db ∧
      set_inference_object_valid DriverOutcome.ok db object_id
        is_valid = Except.ok db) := by
  have hinf : ∀ (h : db.inference.all
      (fun r => !(r.id == inference_id)) = true) (r : InferenceRow),
      r ∈ db.inference → (r.id == inference_id) = false := by
    intro h r hr
    have := List.all_eq_true.mp h r hr
    simpa using this
  have hobj : ∀ (h : db.object.all
      (fun r => !(r.id == object_id)) = true) (r : ObjectRow),
      r ∈ db.object → (r.id == object_id) = false := by
    intro h r hr
    have := List.all_eq_true.mp h r hr
    simpa using this
  refine ⟨⟨_, rfl⟩, ⟨_, rfl⟩, ⟨_, rfl⟩, ⟨_, rfl⟩, ⟨_, rfl⟩, ?_, ?_⟩
  · intro h
    constructor
    · rw [set_inference_feedback_user_id,
        map_id_of_all _ _ (fun r hr => by rw [hinf h r hr]; rfl)]
    · rw [set_inference_verified,
        map_id_of_all _ _ (fun r hr => by rw [hinf h r hr]; rfl)]
  · intro h
    refine ⟨?_, ?_, ?_⟩
    · rw [set_inference_object_top_id,
        map_id_of_all _ _ (fun r hr => by rw [hobj h r hr]; rfl)]
    · rw [set_inference_object_verified_id,
        map_id_of_all _ _ (fun r hr => by rw [hobj h r hr]; rfl)]
    · rw [set_inference_object_valid,
        map_id_of_all _ _ (fun r hr => by rw [hobj h r hr]; rfl)]

/-- Witness for C5 at a database with no row matching the ids. -/
theorem claim_C5_witness :
    (∃ db', set_inference_feedback_user_id DriverOutcome.ok emptyDb "a"
      "u" = Except.ok db') ∧
    (∃ db', set_inference_verified DriverOutcome.ok emptyDb "a"
      true = Except.ok db') ∧
    (∃ db', set_inference_object_top_id DriverOutcome.ok emptyDb "o"
      "t" = Except.ok db') ∧
    (∃ db', set_inference_object_verified_id DriverOutcome.ok emptyDb "o"
      "v" = Except.ok db') ∧
    (∃ db', set_inference_object_valid DriverOutcome.ok emptyDb "o"
      false = Except.ok db') ∧
    (emptyDb.inference.all (fun r => !(r.id == "a")) = true →
      set_inference_feedback_user_id DriverOutcome.ok emptyDb "a"
        "u" = Except.ok emptyDb ∧
      set_inference_verified DriverOutcome.ok emptyDb "a"
        true = Except.ok emptyDb) ∧
    (emptyDb.object.all (fun r => !(r.id == "o")) = true →
      set_inference_object_top_id DriverOutcome.ok emptyDb "o"
        "t" = Except.ok emptyDb ∧
      set_inference_object_verified_id DriverOutcome.ok emptyDb "o"
        "v" = Except.ok emptyDb ∧
      set_inference_object_valid DriverOutcome.ok emptyDb "o"
        false = Except.ok emptyDb) :=
  claim_C5 emptyDb "a" "u" true "o" "t" "v" false

/-- Claim C8: `get_objects_by_inference` returns every object row whose
inference reference matches; a zero-row match returns the empty list
without error; only a driver failure raises its (typed) not-found error. -/
theorem claim_C8 (db : Db) (inference_id : String) :
    (∃ l, get_objects_by_inference DriverOutcome.ok db inference_id =
        Except.ok l ∧
      ∀ r : ObjectRow, r ∈ l ↔
        (r ∈ db.object ∧ r.inference_id = inference_id)) ∧
    (db.object.all (fun r => !(r.inference_id == inference_id)) = true →
      get_objects_by_inference DriverOutcome.ok db inference_id =
        Except.ok []) ∧
    (get_objects_by_inference DriverOutcome.err db inference_id =
      Except.error (QueryError.inferenceObjectNotFoundError
        ("Error: could not get objects for inference " ++ inference_id))) := by
  refine ⟨⟨_, rfl, ?_⟩, ?_, rfl⟩
  · intro r
    rw [List.mem_filter]
    simp
  · intro h
    rw [get_objects_by_inference]
    have : db.object.filter (fun r => r.inference_id == inference_id) = [] := by
      rw [List.filter_eq_nil_iff]
      intro r hr
      have := List.all_eq_true.mp h r hr
      simpa using this
    rw [this]

/-- Witness for C8 at the empty database. -/
theorem claim_C8_witness :
    (∃ l, get_objects_by_inference DriverOutcome.ok emptyDb "a" =
        Except.ok l ∧
      ∀ r : ObjectRow, r ∈ l ↔
        (r ∈ emptyDb.object ∧ r.inference_id = "a")) ∧
    (emptyDb.object.all (fun r => !(r.inference_id == "a")) = true →
      get_objects_by_inference DriverOutcome.ok emptyDb "a" =
        Except.ok []) ∧
    (get_objects_by_inference DriverOutcome.err emptyDb "a" =
      Except.error (QueryError.inferenceObjectNotFoundError
        ("Error: could not get objects for inference " ++ "a"))) :=
  claim_C8 emptyDb "a"

/-- Claim C9: among the object setters, only
`set_inference_object_verified_id` also writes the row's `updated_at`
timestamp together with `verified_id`; `set_inference_object_top_id` and
`set_inference_object_valid` change only their single target column and
leave `updated_at` and every other column of every row unchanged. -/
theorem claim_C9 (db : Db) (object_id top_id verified_id : String)
    (is_valid : Bool) :
    (∃ dbv, set_inference_object_verified_id DriverOutcome.ok db object_id
        verified_id = Except.ok dbv ∧
      List.Forall₂ (fun r r' : ObjectRow =>
        if r.id = object_id then
          r' = { r with verified_id := some verified_id,
                        updated_at := some db.now }
        else r' = r) db.object dbv.object) ∧
    (∃ dbt, set_inference_object_top_id DriverOutcome.ok db object_id
        top_id = Except.ok dbt ∧
      List.Forall₂ (fun r r' : ObjectRow =>
        if r.id = object_id then r' = { r with top_id := some top_id }
        else r' = r) db.object dbt.object) ∧
    (∃ dbl, set_inference_object_valid DriverOutcome.ok db object_id
        is_valid = Except.ok dbl ∧
      List.Forall₂ (fun r r' : ObjectRow =>
        if r.id = object_id then r' = { r with valid := some is_valid }
        else r' = r) db.object dbl.object) := by
  refine ⟨⟨_, rfl, ?_⟩, ⟨_, rfl, ?_⟩, ⟨_, rfl, ?_⟩⟩
  all_goals
    rw [List.forall₂_map_right_iff, List.forall₂_same]
    intro r hr
    by_cases h : r.id = object_id
  all_goals simp [h]

/-- Claim C10: the `type` parameter of `new_inference` has no influence:
two calls differing only in `type` execute the same statement with the
same bound parameters `(inference, picture_id, user_id)` and produce the
same result or error. -/
theorem claim_C10 (ora : DriverOutcome) (db : Db)
    (inference user_id picture_id : String) (ty₁ ty₂ : PyVal) :
    new_inference ora db inference user_id picture_id ty₁ =
      new_inference ora db inference user_id picture_id ty₂ ∧
    new_inference_stmt inference user_id picture_id ty₁ =
      new_inference_stmt inference user_id picture_id ty₂ ∧
    (new_inference_stmt inference user_id picture_id ty₁).2 =
      [inference, picture_id, user_id] :=
  ⟨rfl, rfl, rfl⟩

/-- Claim C6: the export builders lay down the fixed base dict of
identifying fields and then copy every stored-record field in verbatim:
keys present in the stored record get the stored record's value
(collisions resolved in favor of the stored data), keys only in the base
keep their base value, and the output's keys are exactly the union of the
two inputs' keys. -/
theorem claim_C6 (data mdata : PyDict) (name id : String) (default : Bool)
    (model_ids : PyVal) (mid mname mendpoint mtask mversion : String)
    (hd : (data.map Prod.fst).Nodup) (hmd : (mdata.map Prod.fst).Nodup) :
    ((∀ k v, pyGet? data k = some v →
        pyGet? (build_pipeline_export data name id default model_ids) k =
          some v) ∧
      (∀ k, pyContains data k = false →
        pyGet? (build_pipeline_export data name id default model_ids) k =
          pyGet? (pipeline_export_base name id default model_ids) k) ∧
      (∀ k, pyContains (build_pipeline_export data name id default model_ids)
          k = true ↔
        (pyContains (pipeline_export_base name id default model_ids) k = true ∨
          pyContains data k = true))) ∧
    ((∀ k v, pyGet? mdata k = some v →
        pyGet? (build_model_export mdata mid mname mendpoint mtask mversion)
          k = some v) ∧
      (∀ k, pyContains mdata k = false →
        pyGet? (build_model_export mdata mid mname mendpoint mtask mversion)
          k = pyGet? (model_export_base mid mname mendpoint mtask mversion) k) ∧
      (∀ k, pyContains
          (build_model_export mdata mid mname mendpoint mtask mversion)
          k = true ↔
        (pyContains (model_export_base mid mname mendpoint mtask mversion)
            k = true ∨
          pyContains mdata k = true))) := by
  constructor
  · refine ⟨?_, ?_, ?_⟩
    · intro k v hv
      have hc : pyContains data k = true := by
        rw [pyContains, hv]
        rfl
      rw [build_pipeline_export,
        foldl_pySet_get_of_contains data _ k hd hc, hv]
    · intro k hnc
      rw [build_pipeline_export,
        foldl_pySet_get_of_not_contains data _ k hnc]
    · intro k
      rw [build_pipeline_export, foldl_pySet_contains]
  · refine ⟨?_, ?_, ?_⟩
    · intro k v hv
      have hc : pyContains mdata k = true := by
        rw [pyContains, hv]
        rfl
      rw [build_model_export,
        foldl_pySet_get_of_contains mdata _ k hmd hc, hv]
    · intro k hnc
      rw [build_model_export,
        foldl_pySet_get_of_not_contains mdata _ k hnc]
    · intro k
      rw [build_model_export, foldl_pySet_contains]

/-- A concrete stored pipeline record whose `models` key collides with the
base dict, used to instantiate C6. -/
def pipelineStoredEx : PyDict :=
  [("models", PyVal.vStr "override"), ("note", PyVal.vStr "n")]

/-- A concrete stored model record whose `version` key collides with the
base dict, used to instantiate C6. -/
def modelStoredEx : PyDict :=
  [("version", PyVal.vStr "9"), ("other", PyVal.vNone)]

/-- Witness for C6 at the concrete records. -/
theorem claim_C6_witness :
    ((∀ k v, pyGet? pipelineStoredEx k = some v →
        pyGet? (build_pipeline_export pipelineStoredEx "nm" "pid" true
          (PyVal.vStrList ["m1"])) k = some v) ∧
      (∀ k, pyContains pipelineStoredEx k = false →
        pyGet? (build_pipeline_export pipelineStoredEx "nm" "pid" true
          (PyVal.vStrList ["m1"])) k =
          pyGet? (pipeline_export_base "nm" "pid" true
            (PyVal.vStrList ["m1"])) k) ∧
      (∀ k, pyContains (build_pipeline_export pipelineStoredEx "nm" "pid"
          true (PyVal.vStrList ["m1"])) k = true ↔
        (pyContains (pipeline_export_base "nm" "pid" true
            (PyVal.vStrList ["m1"])) k = true ∨
          pyContains pipelineStoredEx k = true))) ∧
    ((∀ k v, pyGet? modelStoredEx k = some v →
        pyGet? (build_model_export modelStoredEx "mid" "mn" "ep" "tk" "1")
          k = some v) ∧
      (∀ k, pyContains modelStoredEx k = false →
        pyGet? (build_model_export modelStoredEx "mid" "mn" "ep" "tk" "1")
          k = pyGet? (model_export_base "mid" "mn" "ep" "tk" "1") k) ∧
      (∀ k, pyContains
          (build_model_export modelStoredEx "mid" "mn" "ep" "tk" "1")
          k = true ↔
        (pyContains (model_export_base "mid" "mn" "ep" "tk" "1") k = true ∨
          pyContains modelStoredEx k = true))) :=
  claim_C6 pipelineStoredEx modelStoredEx "nm" "pid" true
    (PyVal.vStrList ["m1"]) "mid" "mn" "ep" "tk" "1" (by decide) (by decide)

/-- Claim C7: serializing a model record containing all required keys with
`build_model_import` and parsing the resulting text back yields a record
equal — as a key-value mapping, which is Python's dict equality — to the
restriction of the original record to the required-key set. -/
theorem claim_C7 (model : PyDict)
    (h : ∀ k ∈ model_keys, pyContains model k = true) :
    ∃ t, build_model_import model = Except.ok t ∧
      ∀ k, pyGet? (json_loads t) k =
        pyGet? (pyRestrict model model_keys) k := by
  obtain ⟨l, hok, hkeys, hvals⟩ := build_model_import_ok model h
  refine ⟨json_dumps l, hok, ?_⟩
  intro k
  rw [pyRestrict_get]
  by_cases hk : k ∈ model_keys
  · rw [if_pos hk]
    have hcl : pyContains (json_loads (json_dumps l)) k = true :=
      (pyContains_iff_mem l k).mpr (by rw [hkeys]; exact hk)
    obtain ⟨v, hv⟩ := pyGet?_isSome_of_contains _ _ hcl
    rw [hv]
    exact (hvals k v (pyGet?_some_mem l k v hv)).symm
  · rw [if_neg hk]
    have hcf : pyContains l k = false := by
      cases hc : pyContains l k
      · rfl
      · exact absurd (hkeys ▸ (pyContains_iff_mem l k).mp hc) hk
    exact pyGet?_eq_none_of_not_contains l k hcf

/-- Witness for C7 at the concrete model record. -/
theorem claim_C7_witness :
    ∃ t, build_model_import modelRecordEx = Except.ok t ∧
      ∀ k, pyGet? (json_loads t) k =
        pyGet? (pyRestrict modelRecordEx model_keys) k :=
  claim_C7 modelRecordEx (by decide)

end Nachet
